import Mathlib

/-!
Verification development for the `fred-mcp` server (`src/fred_mcp/server.py`).

The Python module is a thin adapter over two external libraries: the `fredapi`
HTTP client (which returns pandas `DataFrame`s / `Series`) and the MCP tool
framework (which carries `CallToolResult` envelopes).  This file gives a
shallow embedding of the module's own logic:

* pandas tabular results are modelled as explicit lists of (index entry, row)
  pairs with a flag recording whether the index is a `DatetimeIndex`;
* every upstream fetch (`fred.search`, `fred.get_series`, ...) becomes an
  explicit `Except String` argument of the operation: `.error e` models the
  call raising an exception whose `str` is `e`, `.ok v` models it returning
  `v` (with `Option` for the `None` returns `fredapi` can produce);
* the process environment variable `FRED_API_KEY` becomes an
  `Option String` argument (`none` = unset);
* the optional file write of an export becomes an explicit `FileWrite` value
  returned next to the envelope (state passing instead of IO);
* the externally-rendered strings (`DataFrame.to_markdown`, `Series.to_markdown`,
  Python's builtin `str`) are parameters, bundled in a `Renderers` record,
  because their output is owned by pandas / CPython, not by this repository.

Scalar cell values are modelled by the `Value` type (string / integer /
null / timestamp); numeric observation values are modelled by integers since
no property below inspects arithmetic on them.
-/

namespace FredMcp

/-- A scalar cell of a tabular result: string, number, null, or a
pandas timestamp (only its calendar date matters to the code). -/
inductive Value where
  | vstr (s : String)
  | vint (n : Int)
  | vnull
  | vdate (y m d : Nat)
deriving DecidableEq, Repr

/-- A JSON-safe record produced by `df_to_records`: a mapping from column
name to scalar value, in column order. -/
abbrev Row := List (String × Value)

/-- Model of a pandas `DataFrame`: one (index entry, cells) pair per row,
plus the index metadata the code inspects (`isinstance(..., DatetimeIndex)`
and `index.name`). -/
structure DataFrame where
  indexIsDatetime : Bool
  indexName : Option String
  rows : List (Value × Row)
deriving DecidableEq, Repr

/-- Model of a pandas `Series`: one (index entry, value) pair per entry. -/
structure PSeries where
  indexIsDatetime : Bool
  indexName : Option String
  entries : List (Value × Value)
deriving DecidableEq, Repr

/-- The two pandas shapes `df_to_records` accepts. -/
inductive PandasObj where
  | frame (df : DataFrame)
  | series (s : PSeries)
deriving DecidableEq, Repr

/-- `Series.to_frame(name="value")`: one column named `value`. -/
def pySeriesToFrame (s : PSeries) : DataFrame :=
  { indexIsDatetime := s.indexIsDatetime, indexName := s.indexName,
    rows := s.entries.map (fun e => (e.1, [("value", e.2)])) }

/-- The `isinstance(temp_df, pd.Series)`/`to_frame` step of `df_to_records`. -/
def PandasObj.toFrame : PandasObj → DataFrame
  | .frame df => df
  | .series s => pySeriesToFrame s

/-- pandas `.empty` for either shape. -/
def PandasObj.isEmpty : PandasObj → Bool
  | .frame df => df.rows.isEmpty
  | .series s => s.entries.isEmpty

/-- Zero-pad a decimal numeral to `width` digits (for `strftime`). -/
def padZero (width : Nat) (n : Nat) : String :=
  let s := toString n
  if s.length < width then String.mk (List.replicate (width - s.length) '0') ++ s
  else s

/-- `timestamp.strftime("%Y-%m-%d")`. -/
def strftimeYMD (y m d : Nat) : String :=
  padZero 4 y ++ "-" ++ padZero 2 m ++ "-" ++ padZero 2 d

/-- The per-cell effect of the `dt.strftime('%Y-%m-%d')` loop: a timestamp
cell becomes its `YYYY-MM-DD` string, every other scalar passes through. -/
def convertDateCell (v : Value) : Value :=
  match v with
  | .vdate y m d => .vstr (strftimeYMD y m d)
  | v => v

/-- Python `temp_df.index.name or "date"` (both `None` and `""` are falsy). -/
def pyOrDate : Option String → String
  | none => "date"
  | some "" => "date"
  | some n => n

/-- `df_to_records` (server.py lines 19-39): `None` or empty input yields
`[]`; a `Series` is first made a one-column frame named `value`; when the
index is a `DatetimeIndex` it is materialized as a leading column (named
`index.name or "date"`) via `reset_index` and the timestamp cells are
rendered as `YYYY-MM-DD` strings; otherwise `to_dict(orient='records')`
simply drops the index and keeps the cells. -/
def df_to_records (obj : Option PandasObj) : List Row :=
  match obj with
  | none => []
  | some o =>
    if o.isEmpty then []
    else
      let tdf := o.toFrame
      if tdf.indexIsDatetime then
        (tdf.rows.map (fun r => (pyOrDate tdf.indexName, r.1) :: r.2)).map
          (fun r => r.map (fun c => (c.1, convertDateCell c.2)))
      else
        tdf.rows.map Prod.snd

/-- `pd.DataFrame(records)`: re-reading the JSON-safe records as a frame with
the default `RangeIndex` (integer index entries, not a `DatetimeIndex`). -/
def recordsAsFrame (rs : List Row) : Option PandasObj :=
  some (PandasObj.frame
    { indexIsDatetime := false, indexName := none,
      rows := rs.enum.map (fun p => (Value.vint p.1, p.2)) })

/-- Clamp one bound of a Python slice `xs[a:b]` to `[0, n]`
(negative bounds count from the end, exactly CPython's `slice.indices`). -/
def pyClamp (n : Nat) (i : Int) : Nat :=
  if i < 0 then ((n : Int) + i).toNat else min i.toNat n

/-- Python / pandas positional slice `xs[a:b]` (`df.iloc[a:b]`): total,
never raises, clamps both bounds to the available length. -/
def pySlice (xs : List α) (a b : Int) : List α :=
  (xs.take (pyClamp xs.length b)).drop (pyClamp xs.length a)

/-- The pagination window `df.iloc[offset : offset + limit]` used by
`format_series_search_results` (line 48) and `get_series_data` (lines 173
and 190). -/
def windowRows (xs : List α) (offset limit : Int) : List α :=
  pySlice xs offset (offset + limit)

/-- `format_series_search_results` (lines 41-52).  `tm` is the external
`DataFrame.to_markdown(index=False)` renderer applied to the paginated page. -/
def format_series_search_results (tm : DataFrame → String)
    (df : Option DataFrame) (limit offset : Int) : String :=
  match df with
  | none => "No series found."
  | some d =>
    if d.rows.isEmpty then "No series found."
    else
      let total := d.rows.length
      let page := windowRows d.rows offset limit
      "**Found " ++ toString total ++ " series (showing " ++ toString page.length
        ++ "):**\n\n" ++ tm { d with rows := page }

/-- JSON values, as handed to `json.dump`. -/
inductive Json where
  | jnull
  | jint (n : Int)
  | jstr (s : String)
  | jarr (xs : List Json)
  | jobj (fields : List (String × Json))

/-- Python `json` string escaping restricted to the escapes our data can
contain (quote, backslash, and the common control characters); `json.dump`
uses `ensure_ascii=True`, so the produced file is ASCII and hence UTF-8. -/
def escChar (c : Char) : String :=
  if c = '"' then "\\\""
  else if c = '\\' then "\\\\"
  else if c = '\n' then "\\n"
  else if c = '\t' then "\\t"
  else if c = '\r' then "\\r"
  else String.singleton c

/-- A JSON string literal with its surrounding quotes. -/
def jsonEscape (s : String) : String :=
  "\"" ++ String.join (s.toList.map escChar) ++ "\""

/-- `n` spaces. -/
def indentSpaces (n : Nat) : String := String.mk (List.replicate n ' ')

mutual

/-- `json.dump(x, f, indent=2)` at nesting level `lvl`: containers put every
element on its own line, indented two further spaces per level. -/
def Json.render (lvl : Nat) : Json → String
  | .jnull => "null"
  | .jint n => toString n
  | .jstr s => jsonEscape s
  | .jarr [] => "[]"
  | .jarr (x :: xs) =>
      "[\n" ++ Json.renderArr (lvl + 1) (x :: xs) ++ "\n" ++ indentSpaces (2 * lvl) ++ "]"
  | .jobj [] => "\x7b\x7d"
  | .jobj (f :: fs) =>
      "\x7b\n" ++ Json.renderObj (lvl + 1) (f :: fs) ++ "\n" ++ indentSpaces (2 * lvl) ++ "\x7d"

/-- Array elements, comma-newline separated, each indented. -/
def Json.renderArr (lvl : Nat) : List Json → String
  | [] => ""
  | [x] => indentSpaces (2 * lvl) ++ Json.render lvl x
  | x :: y :: xs =>
      indentSpaces (2 * lvl) ++ Json.render lvl x ++ ",\n" ++ Json.renderArr lvl (y :: xs)

/-- Object fields, comma-newline separated, each indented, `": "` separator. -/
def Json.renderObj (lvl : Nat) : List (String × Json) → String
  | [] => ""
  | [(k, v)] => indentSpaces (2 * lvl) ++ jsonEscape k ++ ": " ++ Json.render lvl v
  | (k, v) :: f :: fs =>
      indentSpaces (2 * lvl) ++ jsonEscape k ++ ": " ++ Json.render lvl v ++ ",\n"
        ++ Json.renderObj lvl (f :: fs)

end

/-- Is this cell a raw (unconverted) timestamp? -/
def Value.isDate : Value → Bool
  | .vdate _ _ _ => true
  | _ => false

/-- The JSON image of a scalar cell.  (A raw timestamp has no JSON image in
Python; `serializeValue` below raises on it, and this total companion is only
ever applied to date-free cells.) -/
def scalarJson : Value → Json
  | .vstr s => .jstr s
  | .vint n => .jint n
  | .vnull => .jnull
  | .vdate y m d => .jstr (strftimeYMD y m d)

/-- `json.dump` on one scalar: a raw pandas timestamp raises `TypeError`. -/
def serializeValue (v : Value) : Except String Json :=
  if v.isDate then .error "Object of type Timestamp is not JSON serializable"
  else .ok (scalarJson v)

/-- Serialize the cells of one record, failing at the first bad cell. -/
def serializeCells : List (String × Value) → Except String (List (String × Json))
  | [] => .ok []
  | c :: cs =>
    match serializeValue c.2, serializeCells cs with
    | .ok j, .ok js => .ok ((c.1, j) :: js)
    | .error e, _ => .error e
    | _, .error e => .error e

/-- Serialize one record as a JSON object. -/
def serializeRow (r : Row) : Except String Json :=
  match serializeCells r with
  | .ok cells => .ok (.jobj cells)
  | .error e => .error e

/-- Serialize the record list elementwise. -/
def serializeRecordsList : List Row → Except String (List Json)
  | [] => .ok []
  | r :: rs =>
    match serializeRow r, serializeRecordsList rs with
    | .ok j, .ok js => .ok (j :: js)
    | .error e, _ => .error e
    | _, .error e => .error e

/-- The JSON value `json.dump(records, f, indent=2)` receives: the bare
array of row-mappings. -/
def serializeRecords (rs : List Row) : Except String Json :=
  match serializeRecordsList rs with
  | .ok js => .ok (.jarr js)
  | .error e => .error e

/-- The total JSON image of a date-free record. -/
def rowJson (r : Row) : Json :=
  .jobj (r.map (fun c => (c.1, scalarJson c.2)))

/-- No cell of the record is a raw timestamp. -/
def rowDateFree (r : Row) : Bool := r.all (fun c => !c.2.isDate)

/-- No cell of any record is a raw timestamp (serialization succeeds). -/
def recordsDateFree (rs : List Row) : Bool := rs.all rowDateFree

/-- The observable effect of the `open(file_path, 'w') / json.dump` step:
the destination path, the JSON value written, and the rendered file text. -/
structure FileWrite where
  path : String
  json : Json
  content : String

/-- The confirmation string built by `save_to_file` (line 64-65). -/
def save_message (series_id : Option String) (file_path : String) (n : Nat) : String :=
  let idStr := match series_id with
               | none => ""
               | some s => if s = "" then "" else " for `" ++ s ++ "`"
  "✅ Data" ++ idStr ++ " saved to `" ++ file_path ++ "` (" ++ toString n ++ " records)\n"

/-- `save_to_file` (lines 54-65): converts the *full* data via
`df_to_records` (no pagination is in scope here), writes the record array as
2-space-indented JSON, and returns the confirmation message carrying the
record count.  `.error` models `json.dump` raising on a non-serializable
cell; directory creation and the write itself are modelled as succeeding. -/
def save_to_file (data : Option PandasObj) (file_path : String)
    (series_id : Option String) : Except String (FileWrite × String) :=
  let records := df_to_records data
  match serializeRecords records with
  | .error e => .error e
  | .ok j =>
    .ok ({ path := file_path, json := j, content := Json.render 0 j },
         save_message series_id file_path records.length)

/-- A value of the `structuredContent` mapping: the code stores strings,
integers, record lists, and raw scalars there. -/
inductive SVal where
  | s (v : String)
  | i (v : Int)
  | rows (v : List Row)
  | val (v : Value)
deriving DecidableEq, Repr

/-- `structuredContent`: a flat JSON-object-like mapping. -/
abbrev Structured := List (String × SVal)

/-- The MCP `CallToolResult` as this module populates it: one text content
block (`text`), the structured payload, and the error flag (the library
default for `isError` is `False`). -/
structure CallToolResult where
  text : String
  isError : Bool := false
  structured : Structured
deriving DecidableEq, Repr

/-- First value stored under `key`, if any. -/
def stLookup (st : Structured) (key : String) : Option SVal :=
  (st.find? (fun p => p.1 == key)).map Prod.snd

/-- Does the structured payload carry an `error` field? -/
def hasErrorField (st : Structured) : Bool :=
  st.any (fun p => p.1 == "error")

/-- A record re-used as the whole structured payload
(`structuredContent=records[0]`, `structuredContent=info`). -/
def rowToStructured (r : Row) : Structured :=
  r.map (fun c => (c.1, SVal.val c.2))

/-- The envelope every `except` branch builds:
`isError=True`, `structuredContent={"error": str(e)}`. -/
def mkError (text : String) (err : String) : CallToolResult :=
  { text := text, isError := true, structured := [("error", SVal.s err)] }

/-- The `ValueError` message raised by `get_fred`. -/
def FRED_KEY_MSG : String :=
  "FRED_API_KEY environment variable not set. Please set it to use this server."

/-- `get_fred` (lines 12-17): reads `FRED_API_KEY` from the environment and
raises when it is absent or empty (`not api_key`); on success the `Fred`
handle itself carries no further data this module inspects. -/
def get_fred (apiKey : Option String) : Except String Unit :=
  match apiKey with
  | none => .error FRED_KEY_MSG
  | some k => if k = "" then .error FRED_KEY_MSG else .ok ()

/-- The dynamically-shaped value `fredapi.Fred.get_source` can return:
a mapping, a list, or something else entirely (the code probes it with
`isinstance`). -/
inductive SourceInfo where
  | dict (d : List (String × Value))
  | list (xs : List SourceInfo)
  | other (s : String)

/-- Python `str()` of a scalar, used when a cell is interpolated into an
f-string (model; no property below inspects this text). -/
def pyStrOfValue : Value → String
  | .vstr s => s
  | .vint n => toString n
  | .vnull => "None"
  | .vdate y m d => strftimeYMD y m d ++ " 00:00:00"

/-- pandas `Series.get(label, default)` on a metadata series. -/
def seriesGet (s : PSeries) (key : String) : Option Value :=
  (s.entries.find? (fun e => e.1 == Value.vstr key)).map Prod.snd

/-- The externally-owned string renderers: pandas
`DataFrame.to_markdown(index=False)`, `Series`/metadata `to_markdown()`, and
CPython's builtin `str` on the dynamic `get_source` result.  Their output is
not this repository's code, so the operations are parametric in them. -/
structure Renderers where
  frameMd : DataFrame → String
  seriesMd : PSeries → String
  pyStr : SourceInfo → String

/-- `search_series` (lines 67-102).  `search` is the outcome of
`fred.search(query)`.  The second component is the file written by the
export branch, if any. -/
def search_series (R : Renderers) (apiKey : Option String)
    (search : Except String (Option DataFrame)) (query : String)
    (limit offset : Int) (file_path : Option String) :
    CallToolResult × Option FileWrite :=
  let fail := fun (e : String) =>
    (mkError ("Error searching series: " ++ e) e, (none : Option FileWrite))
  match get_fred apiKey with
  | .error e => fail e
  | .ok _ =>
  match search with
  | .error e => fail e
  | .ok df =>
    let records := df_to_records (df.map PandasObj.frame)
    let preview : CallToolResult × Option FileWrite :=
      ({ text := format_series_search_results R.frameMd df limit offset,
         isError := false,
         structured := [("results", SVal.rows records)] }, none)
    match file_path with
    | none => preview
    | some p =>
      if p = "" then preview
      else
        match save_to_file (df.map PandasObj.frame) p (some query) with
        | .error e => fail e
        | .ok (fw, msg) =>
          ({ text := msg, isError := false,
             structured := [("message", SVal.s msg), ("file_path", SVal.s p),
                            ("count", SVal.i records.length)] }, some fw)

/-- `get_series_info` (lines 104-134).  `infoU` is the outcome of
`fred.get_series_info(series_id)` (a metadata `Series`, possibly `None`). -/
def get_series_info (R : Renderers) (apiKey : Option String)
    (infoU : Except String (Option PSeries)) (series_id : String) :
    CallToolResult :=
  let fail := fun (e : String) => mkError ("Error getting series info: " ++ e) e
  let noInfo : CallToolResult :=
    let msg := "No info found for series " ++ series_id
    { text := msg, isError := false, structured := [("error", SVal.s msg)] }
  match get_fred apiKey with
  | .error e => fail e
  | .ok _ =>
  match infoU with
  | .error e => fail e
  | .ok info =>
    match info with
    | none => noInfo
    | some s =>
      if s.entries.isEmpty then noInfo
      else
        let records := df_to_records (some (PandasObj.series s))
        { text := "## Series Metadata: " ++ series_id ++ "\n\n" ++ R.seriesMd s,
          isError := false,
          structured := match records with
                        | [] => []
                        | r :: _ => rowToStructured r }

/-- `get_series_data` (lines 136-199).  `dataU` is the outcome of
`fred.get_series(series_id)`; `infoU` the outcome of the nested
`fred.get_series_info` call feeding the preview title (its failure is
swallowed by the inner bare `except`). -/
def get_series_data (R : Renderers) (apiKey : Option String)
    (dataU : Except String (Option PSeries)) (infoU : Except String PSeries)
    (series_id : String) (limit offset : Int) (file_path : Option String) :
    CallToolResult × Option FileWrite :=
  let fail := fun (e : String) =>
    (mkError ("Error getting series data: " ++ e) e, (none : Option FileWrite))
  match get_fred apiKey with
  | .error e => fail e
  | .ok _ =>
  match dataU with
  | .error e => fail e
  | .ok dataOpt =>
    let noData : CallToolResult × Option FileWrite :=
      let msg := "No data found for series " ++ series_id
      ({ text := msg, isError := false, structured := [("error", SVal.s msg)] }, none)
    match dataOpt with
    | none => noData
    | some s =>
      if s.entries.isEmpty then noData
      else
        let records := df_to_records (some (PandasObj.series s))
        let preview : CallToolResult × Option FileWrite :=
          let total := s.entries.length
          let page := windowRows s.entries offset limit
          let header :=
            match infoU with
            | .error _ => "## " ++ series_id
            | .ok info =>
              let title := match seriesGet info "title" with
                           | some v => pyStrOfValue v
                           | none => series_id
              let units := match seriesGet info "units" with
                           | some v => pyStrOfValue v
                           | none => ""
              "## " ++ title ++ " (" ++ units ++ ")"
          ({ text := header ++ "\n" ++ "**Showing " ++ toString page.length
               ++ " of " ++ toString total ++ " data points**\n\n"
               ++ R.seriesMd { s with entries := page },
             isError := false,
             structured := [("data", SVal.rows (windowRows records offset limit))] },
           none)
        match file_path with
        | none => preview
        | some p =>
          if p = "" then preview
          else
            match save_to_file (some (PandasObj.series s)) p (some series_id) with
            | .error e => fail e
            | .ok (fw, msg) =>
              ({ text := msg, isError := false,
                 structured := [("message", SVal.s msg), ("file_path", SVal.s p),
                                ("count", SVal.i records.length)] }, some fw)

/-- `get_category_details` (lines 203-222): a documented stub — it touches
neither the credential nor the upstream client and returns a fixed
informational envelope (`status: "not_implemented"`, `isError` left at its
`False` default).  The environment argument records that the surrounding
process may or may not have a credential; the function ignores it. -/
def get_category_details (_apiKey : Option String) (category_id : Int) :
    CallToolResult :=
  let msg := "To explore category " ++ toString category_id
    ++ ", please use `get_category_series` or `get_category_children`."
  { text := msg, isError := false,
    structured := [("message", SVal.s msg), ("category_id", SVal.i category_id),
                   ("status", SVal.s "not_implemented")] }

/-- `get_category_children` (lines 224-243): a documented stub, as above. -/
def get_category_children (_apiKey : Option String) (category_id : Int) :
    CallToolResult :=
  let msg := "Tool `get_category_children` is not currently available via this wrapper. Please use `get_category_series`."
  { text := msg, isError := false,
    structured := [("message", SVal.s msg), ("category_id", SVal.i category_id),
                   ("status", SVal.s "not_implemented")] }

/-- `get_category_series` (lines 254-289).  `catU` is the outcome of
`fred.search_by_category(category_id, limit=limit, ...)`. -/
def get_category_series (R : Renderers) (apiKey : Option String)
    (catU : Except String (Option DataFrame)) (category_id : Int)
    (limit offset : Int) (file_path : Option String) :
    CallToolResult × Option FileWrite :=
  let fail := fun (e : String) =>
    (mkError ("Error getting category series: " ++ e) e, (none : Option FileWrite))
  match get_fred apiKey with
  | .error e => fail e
  | .ok _ =>
  match catU with
  | .error e => fail e
  | .ok df =>
    let records := df_to_records (df.map PandasObj.frame)
    let preview : CallToolResult × Option FileWrite :=
      ({ text := format_series_search_results R.frameMd df limit offset,
         isError := false,
         structured := [("results", SVal.rows records)] }, none)
    match file_path with
    | none => preview
    | some p =>
      if p = "" then preview
      else
        match save_to_file (df.map PandasObj.frame) p
                (some ("category_" ++ toString category_id)) with
        | .error e => fail e
        | .ok (fw, msg) =>
          ({ text := msg, isError := false,
             structured := [("message", SVal.s msg), ("file_path", SVal.s p),
                            ("count", SVal.i records.length)] }, some fw)

/-- `get_releases` (lines 291-325).  `relU` is the outcome of
`fred.get_releases(limit=limit, offset=offset)`. -/
def get_releases (R : Renderers) (apiKey : Option String)
    (relU : Except String (Option DataFrame))
    (limit offset : Int) (file_path : Option String) :
    CallToolResult × Option FileWrite :=
  let fail := fun (e : String) =>
    (mkError ("Error getting releases: " ++ e) e, (none : Option FileWrite))
  match get_fred apiKey with
  | .error e => fail e
  | .ok _ =>
  match relU with
  | .error e => fail e
  | .ok df =>
    let records := df_to_records (df.map PandasObj.frame)
    let preview : CallToolResult × Option FileWrite :=
      ({ text := format_series_search_results R.frameMd df limit offset,
         isError := false,
         structured := [("results", SVal.rows records)] }, none)
    match file_path with
    | none => preview
    | some p =>
      if p = "" then preview
      else
        match save_to_file (df.map PandasObj.frame) p (some "releases") with
        | .error e => fail e
        | .ok (fw, msg) =>
          ({ text := msg, isError := false,
             structured := [("message", SVal.s msg), ("file_path", SVal.s p),
                            ("count", SVal.i records.length)] }, some fw)

/-- `get_release_series` (lines 327-362).  `rsU` is the outcome of
`fred.get_release_series(release_id, limit=limit, offset=offset)`. -/
def get_release_series (R : Renderers) (apiKey : Option String)
    (rsU : Except String (Option DataFrame)) (release_id : Int)
    (limit offset : Int) (file_path : Option String) :
    CallToolResult × Option FileWrite :=
  let fail := fun (e : String) =>
    (mkError ("Error getting release series: " ++ e) e, (none : Option FileWrite))
  match get_fred apiKey with
  | .error e => fail e
  | .ok _ =>
  match rsU with
  | .error e => fail e
  | .ok df =>
    let records := df_to_records (df.map PandasObj.frame)
    let preview : CallToolResult × Option FileWrite :=
      ({ text := format_series_search_results R.frameMd df limit offset,
         isError := false,
         structured := [("results", SVal.rows records)] }, none)
    match file_path with
    | none => preview
    | some p =>
      if p = "" then preview
      else
        match save_to_file (df.map PandasObj.frame) p
                (some ("release_" ++ toString release_id)) with
        | .error e => fail e
        | .ok (fw, msg) =>
          ({ text := msg, isError := false,
             structured := [("message", SVal.s msg), ("file_path", SVal.s p),
                            ("count", SVal.i records.length)] }, some fw)

/-- `get_sources` (lines 364-398).  `srcU` is the outcome of
`fred.get_sources()`.  The preview branch has no empty-result guard: it
renders `"**Found {len(df)} sources:**"` plus the table unconditionally
(and `len(None)` raises `TypeError`, caught by the `except`). -/
def get_sources (R : Renderers) (apiKey : Option String)
    (srcU : Except String (Option DataFrame)) (file_path : Option String) :
    CallToolResult × Option FileWrite :=
  let fail := fun (e : String) =>
    (mkError ("Error getting sources: " ++ e) e, (none : Option FileWrite))
  match get_fred apiKey with
  | .error e => fail e
  | .ok _ =>
  match srcU with
  | .error e => fail e
  | .ok df =>
    let records := df_to_records (df.map PandasObj.frame)
    let preview : CallToolResult × Option FileWrite :=
      match df with
      | none => fail "object of type 'NoneType' has no len()"
      | some d =>
        ({ text := "**Found " ++ toString d.rows.length ++ " sources:**\n\n"
             ++ R.frameMd d,
           isError := false,
           structured := [("results", SVal.rows records)] }, none)
    match file_path with
    | none => preview
    | some p =>
      if p = "" then preview
      else
        match save_to_file (df.map PandasObj.frame) p (some "sources") with
        | .error e => fail e
        | .ok (fw, msg) =>
          ({ text := msg, isError := false,
             structured := [("message", SVal.s msg), ("file_path", SVal.s p),
                            ("count", SVal.i records.length)] }, some fw)

/-- `get_source` (lines 400-419).  `srcU` is the outcome of
`fred.get_source(source_id)`; a non-empty list is replaced by its head, a
mapping becomes the structured payload directly, anything else is wrapped
as `{"details": str(info)}`. -/
def get_source (R : Renderers) (apiKey : Option String)
    (srcU : Except String SourceInfo) (source_id : Int) : CallToolResult :=
  let fail := fun (e : String) => mkError ("Error getting source: " ++ e) e
  match get_fred apiKey with
  | .error e => fail e
  | .ok _ =>
  match srcU with
  | .error e => fail e
  | .ok info0 =>
    let info := match info0 with
                | SourceInfo.list (x :: _) => x
                | i => i
    { text := "## Source " ++ toString source_id ++ "\n\n" ++ R.pyStr info,
      isError := false,
      structured := match info with
                    | SourceInfo.dict d => rowToStructured d
                    | i => [("details", SVal.s (R.pyStr i))] }

/-- `search_related_tags` (lines 422-443): a documented stub — fixed
informational envelope, no credential read, no upstream call. -/
def search_related_tags (_apiKey : Option String) (tag_names : String)
    (_limit _offset : Int) : CallToolResult :=
  let msg := "Tool `search_related_tags` is not fully implemented in this version."
  { text := msg, isError := false,
    structured := [("message", SVal.s msg), ("tag_names", SVal.s tag_names),
                   ("status", SVal.s "not_implemented")] }

/-- Trivial renderers for concrete evaluations: the externally-owned
markdown/`str` text is irrelevant to the properties below, so the stub
renders everything as the empty string. -/
def R0 : Renderers :=
  { frameMd := fun _ => "", seriesMd := fun _ => "", pyStr := fun _ => "" }

/-- One sample search-result row. -/
def sampleRow (i : Nat) : Row :=
  [("id", Value.vstr ("S" ++ toString i)), ("title", Value.vstr "Gross Domestic Product")]

/-- A stub upstream search result with 5 rows (string index, as
`fred.search` returns). -/
def df5 : DataFrame :=
  { indexIsDatetime := false, indexName := some "series id",
    rows := (List.range 5).map (fun i => (Value.vstr ("S" ++ toString i), sampleRow i)) }

/-- An empty upstream frame. -/
def emptyDf : DataFrame :=
  { indexIsDatetime := false, indexName := none, rows := [] }

/-- A stub 3-point observation series with a `DatetimeIndex`. -/
def s3 : PSeries :=
  { indexIsDatetime := true, indexName := none,
    entries := [(Value.vdate 2020 1 1, Value.vint 100),
                (Value.vdate 2020 4 1, Value.vint 101),
                (Value.vdate 2020 7 1, Value.vint 102)] }

/-- Length of the `results` list of a structured payload, when present. -/
def resultsLength (st : Structured) : Option Nat :=
  match stLookup st "results" with
  | some (SVal.rows r) => some r.length
  | _ => none

/-- Number of elements of the JSON array written to disk, when a file was
written and its top-level value is an array. -/
def writtenCount : Option FileWrite → Option Nat
  | some fw =>
    match fw.json with
    | Json.jarr xs => some xs.length
    | _ => none
  | none => none

/-- The uniform failure shape of §7: the structured payload is exactly an
`error` descriptor and the display text carries the failure message. -/
def isErrorEnvelope (r : CallToolResult) : Prop :=
  ∃ e, r.structured = [("error", SVal.s e)] ∧ ∃ pre, r.text = pre ++ e

end FredMcp

namespace FredMcp

theorem pyClamp_nonneg (n : Nat) (i : Int) (h : 0 ≤ i) :
    pyClamp n i = min i.toNat n := by
  unfold pyClamp
  rw [if_neg (by omega)]

/-- For non-negative bounds the Python slice is plain drop-then-take. -/
theorem windowRows_eq_drop_take (xs : List α) (o l : Int) (ho : 0 ≤ o) (hl : 0 ≤ l) :
    windowRows xs o l = (xs.drop o.toNat).take l.toNat := by
  unfold windowRows pySlice
  rw [pyClamp_nonneg _ _ ho, pyClamp_nonneg _ _ (by omega)]
  have hol : (o + l).toNat = o.toNat + l.toNat := by omega
  rw [hol]
  rcases Nat.le_total o.toNat xs.length with h | h
  · rw [Nat.min_eq_left h]
    have h1 : xs.take (min (o.toNat + l.toNat) xs.length) = xs.take (o.toNat + l.toNat) :=
      List.take_eq_take.mpr (by omega)
    rw [h1, List.drop_take, Nat.add_sub_cancel_left]
  · rw [Nat.min_eq_right h]
    have h2 : xs.drop o.toNat = [] := List.drop_eq_nil_of_le (by omega)
    rw [h2]
    simp only [List.take_nil]
    apply List.drop_eq_nil_of_le
    simp only [List.length_take]
    omega

theorem windowRows_length (xs : List α) (o l : Int) (ho : 0 ≤ o) (hl : 0 ≤ l) :
    (windowRows xs o l).length = min l.toNat (xs.length - o.toNat) := by
  rw [windowRows_eq_drop_take xs o l ho hl]
  simp only [List.length_take, List.length_drop]

/-- C3: Pagination window law — for every tabular result and every
non-negative `offset`/`limit`, the preview window
`df.iloc[offset : offset + limit]` selects rows `[offset, offset + limit)`
clamped to the available row count; its length is
`min(limit, max(0, len(R) - offset))`; an out-of-range offset yields the
empty window (the slice is a total function, so no error is possible). -/
theorem pagination_window_law (rows : List Row) (o l : Int)
    (ho : 0 ≤ o) (hl : 0 ≤ l) :
    windowRows rows o l = (rows.drop o.toNat).take l.toNat ∧
    ((windowRows rows o l).length : Int) = min l (max 0 ((rows.length : Int) - o)) ∧
    ((rows.length : Int) ≤ o → windowRows rows o l = []) := by
  refine ⟨windowRows_eq_drop_take _ _ _ ho hl, ?_, ?_⟩
  · have h := windowRows_length rows o l ho hl
    omega
  · intro hoo
    rw [windowRows_eq_drop_take _ _ _ ho hl,
        List.drop_eq_nil_of_le (by omega)]
    simp

/-- Witness for C3 at a concrete input: the 5 records of `df5`, offset 4,
limit 3 — the law holds there with all hypotheses discharged. -/
theorem pagination_window_law_witness :
    (0 : Int) ≤ 4 ∧ (0 : Int) ≤ 3 ∧
    (windowRows (df_to_records (some (PandasObj.frame df5))) 4 3
        = ((df_to_records (some (PandasObj.frame df5))).drop (Int.toNat 4)).take (Int.toNat 3) ∧
     ((windowRows (df_to_records (some (PandasObj.frame df5))) 4 3).length : Int)
        = min 3 (max 0 (((df_to_records (some (PandasObj.frame df5))).length : Int) - 4)) ∧
     (((df_to_records (some (PandasObj.frame df5))).length : Int) ≤ 4 →
        windowRows (df_to_records (some (PandasObj.frame df5))) 4 3 = [])) :=
  ⟨by omega, by omega,
   pagination_window_law (df_to_records (some (PandasObj.frame df5))) 4 3
     (by omega) (by omega)⟩

/-- Reading a record list back as a frame (default `RangeIndex`) and
converting again reproduces the records unchanged: the second pass skips
both the `Series` branch and the `DatetimeIndex` branch and
`to_dict(orient='records')` just drops the integer index. -/
theorem enumRows_map_snd (k : Nat) (l : List Row) :
    ((List.enumFrom k l).map (fun p => (Value.vint p.1, p.2))).map Prod.snd = l := by
  induction l generalizing k with
  | nil => rfl
  | cons x xs ih => simp only [List.enumFrom, List.map_cons]; rw [ih]

theorem df_to_records_roundtrip (rs : List Row) :
    df_to_records (recordsAsFrame rs) = rs := by
  cases rs with
  | nil => rfl
  | cons r rs' =>
    unfold df_to_records recordsAsFrame
    simp only [PandasObj.isEmpty, PandasObj.toFrame, List.enum]
    simp [List.map_map, Function.comp, List.enum_map_snd]
    rw [← List.map_map]
    exact enumRows_map_snd 1 rs'

/-- C8: `toRecords` is idempotent — re-applying the row-mapping conversion
to its own JSON-safe output (read back as a tabular result via
`recordsAsFrame`, i.e. `pd.DataFrame(records)`) yields the same sequence. -/
theorem toRecords_idempotent (obj : Option PandasObj) :
    df_to_records (recordsAsFrame (df_to_records obj)) = df_to_records obj :=
  df_to_records_roundtrip (df_to_records obj)

theorem serializeValue_of_not_date (v : Value) (h : v.isDate = false) :
    serializeValue v = .ok (scalarJson v) := by
  unfold serializeValue
  rw [h]
  rfl

theorem serializeCells_of_dateFree (r : Row) (h : rowDateFree r = true) :
    serializeCells r = .ok (r.map (fun c => (c.1, scalarJson c.2))) := by
  induction r with
  | nil => rfl
  | cons c cs ih =>
    simp only [rowDateFree, List.all_cons, Bool.and_eq_true] at h
    obtain ⟨h1, h2⟩ := h
    unfold serializeCells
    rw [serializeValue_of_not_date c.2 (by simpa using h1),
        ih (by simpa [rowDateFree] using h2)]
    rfl

theorem serializeRow_of_dateFree (r : Row) (h : rowDateFree r = true) :
    serializeRow r = .ok (rowJson r) := by
  unfold serializeRow rowJson
  rw [serializeCells_of_dateFree r h]

theorem serializeRecordsList_of_dateFree (rs : List Row)
    (h : recordsDateFree rs = true) :
    serializeRecordsList rs = .ok (rs.map rowJson) := by
  induction rs with
  | nil => rfl
  | cons r rest ih =>
    simp only [recordsDateFree, List.all_cons, Bool.and_eq_true] at h
    obtain ⟨h1, h2⟩ := h
    unfold serializeRecordsList
    rw [serializeRow_of_dateFree r h1, ih (by simpa [recordsDateFree] using h2)]
    rfl

theorem serializeRecords_of_dateFree (rs : List Row)
    (h : recordsDateFree rs = true) :
    serializeRecords rs = .ok (.jarr (rs.map rowJson)) := by
  unfold serializeRecords
  rw [serializeRecordsList_of_dateFree rs h]

theorem save_to_file_of_dateFree (data : Option PandasObj) (p : String)
    (sid : Option String) (h : recordsDateFree (df_to_records data) = true) :
    save_to_file data p sid = Except.ok
      ({ path := p, json := Json.jarr ((df_to_records data).map rowJson),
         content := Json.render 0 (Json.jarr ((df_to_records data).map rowJson)) },
       save_message sid p (df_to_records data).length) := by
  simp only [save_to_file]
  rw [serializeRecords_of_dateFree _ h]

/-- C9: Persisted-export file format — every successful export (i.e. with
JSON-serializable records, `recordsDateFree`) writes exactly the bare JSON
array of the row-mappings produced by `df_to_records`, rendered by the
2-space-indentation layout of `json.dump(records, f, indent=2)`
(`Json.render 0`), with no wrapping envelope object and no trailing
metadata, and returns the confirmation message with the record count.
(`json.dump` keeps `ensure_ascii=True`, so the file is ASCII, hence valid
UTF-8.) -/
theorem persisted_export_format (data : Option PandasObj) (p : String)
    (sid : Option String) (h : recordsDateFree (df_to_records data) = true) :
    save_to_file data p sid = Except.ok
      ({ path := p, json := Json.jarr ((df_to_records data).map rowJson),
         content := Json.render 0 (Json.jarr ((df_to_records data).map rowJson)) },
       save_message sid p (df_to_records data).length) :=
  save_to_file_of_dateFree data p sid h

/-- Witness for C9: exporting the concrete 5-row search result writes the
bare 5-element array and reports 5 records. -/
theorem persisted_export_format_witness :
    recordsDateFree (df_to_records (some (PandasObj.frame df5))) = true ∧
    save_to_file (some (PandasObj.frame df5)) "/tmp/gdp.json" (some "gdp") = Except.ok
      ({ path := "/tmp/gdp.json",
         json := Json.jarr ((df_to_records (some (PandasObj.frame df5))).map rowJson),
         content := Json.render 0
           (Json.jarr ((df_to_records (some (PandasObj.frame df5))).map rowJson)) },
       save_message (some "gdp") "/tmp/gdp.json"
         (df_to_records (some (PandasObj.frame df5))).length) :=
  ⟨by decide, persisted_export_format _ _ _ (by decide)⟩

/-- C4: Export ignores pagination — for both exporting operations, with a
valid credential, a serializable result and a non-empty destination path,
the persisted file is exactly the full `df_to_records` output (one JSON
element per record), the confirmation text reports that same count, and the
whole call result is independent of the `offset`/`limit` arguments (and of
the renderers and, for `get_series_data`, of the nested metadata fetch). -/
theorem export_ignores_pagination :
    (∀ (R R' : Renderers) (key : String) (df : Option DataFrame) (q p : String)
       (l o l' o' : Int),
       key ≠ "" → p ≠ "" →
       recordsDateFree (df_to_records (df.map PandasObj.frame)) = true →
       (search_series R (some key) (Except.ok df) q l o (some p)).2
         = some { path := p,
                  json := Json.jarr ((df_to_records (df.map PandasObj.frame)).map rowJson),
                  content := Json.render 0
                    (Json.jarr ((df_to_records (df.map PandasObj.frame)).map rowJson)) } ∧
       (search_series R (some key) (Except.ok df) q l o (some p)).1.text
         = save_message (some q) p (df_to_records (df.map PandasObj.frame)).length ∧
       search_series R (some key) (Except.ok df) q l o (some p)
         = search_series R' (some key) (Except.ok df) q l' o' (some p))
  ∧ (∀ (R R' : Renderers) (key : String) (s : PSeries)
       (infoU infoU' : Except String PSeries) (sid p : String) (l o l' o' : Int),
       key ≠ "" → p ≠ "" → s.entries.isEmpty = false →
       recordsDateFree (df_to_records (some (PandasObj.series s))) = true →
       (get_series_data R (some key) (Except.ok (some s)) infoU sid l o (some p)).2
         = some { path := p,
                  json := Json.jarr ((df_to_records (some (PandasObj.series s))).map rowJson),
                  content := Json.render 0
                    (Json.jarr ((df_to_records (some (PandasObj.series s))).map rowJson)) } ∧
       (get_series_data R (some key) (Except.ok (some s)) infoU sid l o (some p)).1.text
         = save_message (some sid) p (df_to_records (some (PandasObj.series s))).length ∧
       get_series_data R (some key) (Except.ok (some s)) infoU sid l o (some p)
         = get_series_data R' (some key) (Except.ok (some s)) infoU' sid l' o' (some p)) := by
  constructor
  · intro R R' key df q p l o l' o' hkey hp hdf
    have hs := save_to_file_of_dateFree (df.map PandasObj.frame) p (some q) hdf
    refine ⟨?_, ?_, ?_⟩ <;>
      simp [search_series, get_fred, hkey, hp, hs]
  · intro R R' key s infoU infoU' sid p l o l' o' hkey hp hne hdf
    have hs := save_to_file_of_dateFree (some (PandasObj.series s)) p (some sid) hdf
    refine ⟨?_, ?_, ?_⟩ <;>
      simp [get_series_data, get_fred, hkey, hp, hne, hs]

/-- Witness for C4: the concrete 5-row export with two different
offset/limit pairs. -/
theorem export_ignores_pagination_witness :
    ("key" : String) ≠ "" ∧ ("/tmp/gdp.json" : String) ≠ "" ∧
    recordsDateFree (df_to_records ((some df5).map PandasObj.frame)) = true ∧
    ((search_series R0 (some "key") (Except.ok (some df5)) "gdp" 2 0
        (some "/tmp/gdp.json")).2
       = some { path := "/tmp/gdp.json",
                json := Json.jarr
                  ((df_to_records ((some df5).map PandasObj.frame)).map rowJson),
                content := Json.render 0 (Json.jarr
                  ((df_to_records ((some df5).map PandasObj.frame)).map rowJson)) } ∧
     (search_series R0 (some "key") (Except.ok (some df5)) "gdp" 2 0
        (some "/tmp/gdp.json")).1.text
       = save_message (some "gdp") "/tmp/gdp.json"
           (df_to_records ((some df5).map PandasObj.frame)).length ∧
     search_series R0 (some "key") (Except.ok (some df5)) "gdp" 2 0
        (some "/tmp/gdp.json")
       = search_series R0 (some "key") (Except.ok (some df5)) "gdp" 7 3
        (some "/tmp/gdp.json")) :=
  ⟨by decide, by decide, by decide,
   export_ignores_pagination.1 R0 R0 "key" (some df5) "gdp" "/tmp/gdp.json" 2 0 7 3
     (by decide) (by decide) (by decide)⟩

/-- C2 counterexample: in a `search_series` call with `limit=2, offset=0`
against a stub upstream returning 5 rows, the structured payload's
`results` list has length 5 — the code stores the full, unpaginated record
list — not length 2 as claimed. -/
theorem search_scenario_counterexample :
    resultsLength
      (search_series R0 (some "key") (Except.ok (some df5)) "gdp" 2 0 none).1.structured
      = some 5 ∧
    resultsLength
      (search_series R0 (some "key") (Except.ok (some df5)) "gdp" 2 0 none).1.structured
      ≠ some 2 := by
  decide

/-- C2 (amended): searching `"gdp"` with `limit=2, offset=0` against a stub
upstream returning 5 rows yields the preview header
`"**Found 5 series (showing 2):**"` (here with the table body rendered by
the stub markdown renderer), and a structured `results` list of length 5
(the full record list — only the preview text is windowed); the same call
with a destination path reports 5 persisted records in the display text and
writes a 5-element JSON array. -/
theorem search_scenario_amended :
    (search_series R0 (some "key") (Except.ok (some df5)) "gdp" 2 0 none).1.text
      = "**Found 5 series (showing 2):**\n\n" ∧
    resultsLength
      (search_series R0 (some "key") (Except.ok (some df5)) "gdp" 2 0 none).1.structured
      = some 5 ∧
    (search_series R0 (some "key") (Except.ok (some df5)) "gdp" 2 0
        (some "/tmp/gdp.json")).1.text
      = "✅ Data for `gdp` saved to `/tmp/gdp.json` (5 records)\n" ∧
    writtenCount
      (search_series R0 (some "key") (Except.ok (some df5)) "gdp" 2 0
        (some "/tmp/gdp.json")).2
      = some 5 := by
  refine ⟨by decide, by decide, by decide, by decide⟩

/-- C10: without a destination path, with a valid credential, a non-empty
upstream series and non-negative `offset`/`limit`, the structured payload's
`data` field of `get_series_data` is exactly the window
`records[offset : offset + limit]` of the full converted record list, whose
length is `min(limit, max(0, N - offset))` for `N` the total record count. -/
theorem series_data_payload_window (R : Renderers) (key : String)
    (infoU : Except String PSeries) (sid : String) (s : PSeries) (l o : Int)
    (hkey : key ≠ "") (hne : s.entries.isEmpty = false) (ho : 0 ≤ o) (hl : 0 ≤ l) :
    stLookup
      (get_series_data R (some key) (Except.ok (some s)) infoU sid l o none).1.structured
      "data"
      = some (SVal.rows (windowRows (df_to_records (some (PandasObj.series s))) o l)) ∧
    ((windowRows (df_to_records (some (PandasObj.series s))) o l).length : Int)
      = min l (max 0 (((df_to_records (some (PandasObj.series s))).length : Int) - o)) := by
  constructor
  · simp [get_series_data, get_fred, hkey, hne, stLookup]
  · have h := windowRows_length (df_to_records (some (PandasObj.series s))) o l ho hl
    omega

/-- Witness for C10: the 3-point series `s3`, offset 1, limit 2 — the
payload window is `records[1:3]`, of length `min 2 (3 - 1) = 2`. -/
theorem series_data_payload_window_witness :
    ("key" : String) ≠ "" ∧ s3.entries.isEmpty = false ∧
    (0 : Int) ≤ 1 ∧ (0 : Int) ≤ 2 ∧
    (stLookup
       (get_series_data R0 (some "key") (Except.ok (some s3)) (Except.error "boom")
         "GDP" 2 1 none).1.structured "data"
       = some (SVal.rows (windowRows (df_to_records (some (PandasObj.series s3))) 1 2)) ∧
     ((windowRows (df_to_records (some (PandasObj.series s3))) 1 2).length : Int)
       = min 2 (max 0 (((df_to_records (some (PandasObj.series s3))).length : Int) - 1))) :=
  ⟨by decide, by decide, by omega, by omega,
   series_data_payload_window R0 "key" (Except.error "boom") "GDP" s3 2 1
     (by decide) (by decide) (by omega) (by omega)⟩

/-- C5 counterexample: with no credential configured, the stub operation
`get_category_details` (which never reads the credential and performs no
upstream call) answers its fixed informational envelope with
`isError = false` and no `error` field — refuting "for every operation,
when no credential is configured the call returns isError = true". -/
theorem missing_credential_counterexample :
    (get_category_details none 125).isError = false ∧
    stLookup (get_category_details none 125).structured "status"
      = some (SVal.s "not_implemented") ∧
    hasErrorField (get_category_details none 125).structured = false := by
  decide

/-- C5 (amended): for every operation that performs an upstream fetch
(`search_series`, `get_series_info`, `get_series_data`,
`get_category_series`, `get_releases`, `get_release_series`, `get_sources`,
`get_source`), a missing or empty credential yields `isError = true` with
the configuration-specific `FRED_API_KEY` message, and the result does not
depend on the upstream at all (zero network calls); the three stub
operations instead return their fixed informational non-error envelope. -/
theorem missing_credential_amended :
    (∀ R k u q l o fp, (k = none ∨ k = some "") →
       (search_series R k u q l o fp).1.isError = true ∧
       (search_series R k u q l o fp).1.text
         = "Error searching series: " ++ FRED_KEY_MSG ∧
       ∀ u', search_series R k u q l o fp = search_series R k u' q l o fp)
  ∧ (∀ R k u sid, (k = none ∨ k = some "") →
       (get_series_info R k u sid).isError = true ∧
       (get_series_info R k u sid).text
         = "Error getting series info: " ++ FRED_KEY_MSG ∧
       ∀ u', get_series_info R k u sid = get_series_info R k u' sid)
  ∧ (∀ R k u iu sid l o fp, (k = none ∨ k = some "") →
       (get_series_data R k u iu sid l o fp).1.isError = true ∧
       (get_series_data R k u iu sid l o fp).1.text
         = "Error getting series data: " ++ FRED_KEY_MSG ∧
       ∀ u' iu', get_series_data R k u iu sid l o fp
         = get_series_data R k u' iu' sid l o fp)
  ∧ (∀ R k u cid l o fp, (k = none ∨ k = some "") →
       (get_category_series R k u cid l o fp).1.isError = true ∧
       (get_category_series R k u cid l o fp).1.text
         = "Error getting category series: " ++ FRED_KEY_MSG ∧
       ∀ u', get_category_series R k u cid l o fp
         = get_category_series R k u' cid l o fp)
  ∧ (∀ R k u l o fp, (k = none ∨ k = some "") →
       (get_releases R k u l o fp).1.isError = true ∧
       (get_releases R k u l o fp).1.text
         = "Error getting releases: " ++ FRED_KEY_MSG ∧
       ∀ u', get_releases R k u l o fp = get_releases R k u' l o fp)
  ∧ (∀ R k u rid l o fp, (k = none ∨ k = some "") →
       (get_release_series R k u rid l o fp).1.isError = true ∧
       (get_release_series R k u rid l o fp).1.text
         = "Error getting release series: " ++ FRED_KEY_MSG ∧
       ∀ u', get_release_series R k u rid l o fp
         = get_release_series R k u' rid l o fp)
  ∧ (∀ R k u fp, (k = none ∨ k = some "") →
       (get_sources R k u fp).1.isError = true ∧
       (get_sources R k u fp).1.text = "Error getting sources: " ++ FRED_KEY_MSG ∧
       ∀ u', get_sources R k u fp = get_sources R k u' fp)
  ∧ (∀ R k u sidN, (k = none ∨ k = some "") →
       (get_source R k u sidN).isError = true ∧
       (get_source R k u sidN).text = "Error getting source: " ++ FRED_KEY_MSG ∧
       ∀ u', get_source R k u sidN = get_source R k u' sidN) := by
  refine ⟨?_, ?_, ?_, ?_, ?_, ?_, ?_, ?_⟩
  · intro R k u q l o fp h
    rcases h with rfl | rfl <;> exact ⟨rfl, rfl, fun _ => rfl⟩
  · intro R k u sid h
    rcases h with rfl | rfl <;> exact ⟨rfl, rfl, fun _ => rfl⟩
  · intro R k u iu sid l o fp h
    rcases h with rfl | rfl <;> exact ⟨rfl, rfl, fun _ _ => rfl⟩
  · intro R k u cid l o fp h
    rcases h with rfl | rfl <;> exact ⟨rfl, rfl, fun _ => rfl⟩
  · intro R k u l o fp h
    rcases h with rfl | rfl <;> exact ⟨rfl, rfl, fun _ => rfl⟩
  · intro R k u rid l o fp h
    rcases h with rfl | rfl <;> exact ⟨rfl, rfl, fun _ => rfl⟩
  · intro R k u fp h
    rcases h with rfl | rfl <;> exact ⟨rfl, rfl, fun _ => rfl⟩
  · intro R k u sidN h
    rcases h with rfl | rfl <;> exact ⟨rfl, rfl, fun _ => rfl⟩

/-- Witness for C5 (amended) at a concrete input: `search_series` with the
variable unset. -/
theorem missing_credential_amended_witness :
    ((none : Option String) = none ∨ (none : Option String) = some "") ∧
    ((search_series R0 none (Except.ok (some df5)) "gdp" 10 0 none).1.isError = true ∧
     (search_series R0 none (Except.ok (some df5)) "gdp" 10 0 none).1.text
       = "Error searching series: " ++ FRED_KEY_MSG ∧
     ∀ u', search_series R0 none (Except.ok (some df5)) "gdp" 10 0 none
       = search_series R0 none u' "gdp" 10 0 none) :=
  ⟨Or.inl rfl,
   missing_credential_amended.1 R0 none (Except.ok (some df5)) "gdp" 10 0 none
     (Or.inl rfl)⟩

/-- C6: the three documented stubs (`get_category_details`,
`get_category_children`, `search_related_tags`) return their informational
envelope (`status: "not_implemented"`) for every input, never report
`isError`, and are independent of the configured credential; none of them
takes an upstream outcome at all — the embedding gives them no upstream
argument because the code performs no call. -/
theorem stub_operations_informational :
    (∀ k k' cid, (get_category_details k cid).isError = false ∧
       stLookup (get_category_details k cid).structured "status"
         = some (SVal.s "not_implemented") ∧
       get_category_details k cid = get_category_details k' cid)
  ∧ (∀ k k' cid, (get_category_children k cid).isError = false ∧
       stLookup (get_category_children k cid).structured "status"
         = some (SVal.s "not_implemented") ∧
       get_category_children k cid = get_category_children k' cid)
  ∧ (∀ k k' tn l o, (search_related_tags k tn l o).isError = false ∧
       stLookup (search_related_tags k tn l o).structured "status"
         = some (SVal.s "not_implemented") ∧
       search_related_tags k tn l o = search_related_tags k' tn l o) :=
  ⟨fun _ _ _ => ⟨rfl, rfl, rfl⟩, fun _ _ _ => ⟨rfl, rfl, rfl⟩,
   fun _ _ _ _ _ => ⟨rfl, rfl, rfl⟩⟩

/-- C7 counterexample: `get_sources` with an empty upstream row sequence
renders `"**Found 0 sources:**"` plus table markup — the fixed
`"No sources found."` sentence is skipped by this listing operation. -/
theorem empty_sources_counterexample :
    (get_sources R0 (some "key") (Except.ok (some emptyDf)) none).1.text
      = "**Found 0 sources:**\n\n" ∧
    (get_sources R0 (some "key") (Except.ok (some emptyDf)) none).1.text
      ≠ "No sources found." := by
  decide

/-- C7 (amended): the listing operations that render through
`format_series_search_results` (`search_series`, `get_category_series`,
`get_releases`, `get_release_series`) produce exactly the fixed sentence
`"No series found."` on an empty (or `None`) row sequence — with the noun
hardcoded to "series" whatever the listed entity is — while `get_sources`
has no empty-result guard and instead renders the
`"**Found 0 sources:**"` header followed by the table markup. -/
theorem empty_result_rendering_amended :
    (∀ tm l o, format_series_search_results tm none l o = "No series found.")
  ∧ (∀ tm (d : DataFrame) l o, d.rows = [] →
       format_series_search_results tm (some d) l o = "No series found.")
  ∧ (∀ R key q l o (d : DataFrame), key ≠ "" → d.rows = [] →
       (search_series R (some key) (Except.ok (some d)) q l o none).1.text
         = "No series found.")
  ∧ (∀ R key cid l o (d : DataFrame), key ≠ "" → d.rows = [] →
       (get_category_series R (some key) (Except.ok (some d)) cid l o none).1.text
         = "No series found.")
  ∧ (∀ R key l o (d : DataFrame), key ≠ "" → d.rows = [] →
       (get_releases R (some key) (Except.ok (some d)) l o none).1.text
         = "No series found.")
  ∧ (∀ R key rid l o (d : DataFrame), key ≠ "" → d.rows = [] →
       (get_release_series R (some key) (Except.ok (some d)) rid l o none).1.text
         = "No series found.")
  ∧ (∀ R key (d : DataFrame), key ≠ "" → d.rows = [] →
       (get_sources R (some key) (Except.ok (some d)) none).1.text
         = "**Found 0 sources:**\n\n" ++ R.frameMd d) := by
  refine ⟨?_, ?_, ?_, ?_, ?_, ?_, ?_⟩
  · intro tm l o
    rfl
  · intro tm d l o h
    simp [format_series_search_results, h]
  · intro R key q l o d hkey h
    simp [search_series, get_fred, hkey, format_series_search_results, h]
  · intro R key cid l o d hkey h
    simp [get_category_series, get_fred, hkey, format_series_search_results, h]
  · intro R key l o d hkey h
    simp [get_releases, get_fred, hkey, format_series_search_results, h]
  · intro R key rid l o d hkey h
    simp [get_release_series, get_fred, hkey, format_series_search_results, h]
  · intro R key d hkey h
    simp [get_sources, get_fred, hkey, h]
    congr 1

/-- Witness for C7 (amended): the empty frame, concrete key. -/
theorem empty_result_rendering_amended_witness :
    ("key" : String) ≠ "" ∧ emptyDf.rows = [] ∧
    (search_series R0 (some "key") (Except.ok (some emptyDf)) "gdp" 10 0 none).1.text
      = "No series found." ∧
    (get_sources R0 (some "key") (Except.ok (some emptyDf)) none).1.text
      = "**Found 0 sources:**\n\n" ++ R0.frameMd emptyDf :=
  ⟨by decide, rfl,
   empty_result_rendering_amended.2.2.1 R0 "key" "gdp" 10 0 emptyDf (by decide) rfl,
   empty_result_rendering_amended.2.2.2.2.2.2 R0 "key" emptyDf (by decide) rfl⟩

theorem search_series_error_shape (R : Renderers) (k : Option String)
    (u : Except String (Option DataFrame)) (q : String) (l o : Int)
    (fp : Option String) :
    (search_series R k u q l o fp).1.isError = true →
    isErrorEnvelope (search_series R k u q l o fp).1 := by
  unfold search_series isErrorEnvelope
  dsimp only
  repeat' split
  all_goals intro h
  all_goals first
    | exact ⟨_, rfl, _, rfl⟩
    | simp [mkError] at h

theorem get_series_info_error_shape (R : Renderers) (k : Option String)
    (u : Except String (Option PSeries)) (sid : String) :
    (get_series_info R k u sid).isError = true →
    isErrorEnvelope (get_series_info R k u sid) := by
  unfold get_series_info isErrorEnvelope
  dsimp only
  repeat' split
  all_goals intro h
  all_goals first
    | exact ⟨_, rfl, _, rfl⟩
    | simp [mkError] at h

theorem get_series_data_error_shape (R : Renderers) (k : Option String)
    (u : Except String (Option PSeries)) (iu : Except String PSeries)
    (sid : String) (l o : Int) (fp : Option String) :
    (get_series_data R k u iu sid l o fp).1.isError = true →
    isErrorEnvelope (get_series_data R k u iu sid l o fp).1 := by
  unfold get_series_data isErrorEnvelope
  dsimp only
  repeat' split
  all_goals intro h
  all_goals first
    | exact ⟨_, rfl, _, rfl⟩
    | simp [mkError] at h

theorem get_category_details_error_shape (k : Option String) (cid : Int) :
    (get_category_details k cid).isError = true →
    isErrorEnvelope (get_category_details k cid) := by
  intro h
  simp [get_category_details] at h

theorem get_category_children_error_shape (k : Option String) (cid : Int) :
    (get_category_children k cid).isError = true →
    isErrorEnvelope (get_category_children k cid) := by
  intro h
  simp [get_category_children] at h

theorem get_category_series_error_shape (R : Renderers) (k : Option String)
    (u : Except String (Option DataFrame)) (cid : Int) (l o : Int)
    (fp : Option String) :
    (get_category_series R k u cid l o fp).1.isError = true →
    isErrorEnvelope (get_category_series R k u cid l o fp).1 := by
  unfold get_category_series isErrorEnvelope
  dsimp only
  repeat' split
  all_goals intro h
  all_goals first
    | exact ⟨_, rfl, _, rfl⟩
    | simp [mkError] at h

theorem get_releases_error_shape (R : Renderers) (k : Option String)
    (u : Except String (Option DataFrame)) (l o : Int) (fp : Option String) :
    (get_releases R k u l o fp).1.isError = true →
    isErrorEnvelope (get_releases R k u l o fp).1 := by
  unfold get_releases isErrorEnvelope
  dsimp only
  repeat' split
  all_goals intro h
  all_goals first
    | exact ⟨_, rfl, _, rfl⟩
    | simp [mkError] at h

theorem get_release_series_error_shape (R : Renderers) (k : Option String)
    (u : Except String (Option DataFrame)) (rid : Int) (l o : Int)
    (fp : Option String) :
    (get_release_series R k u rid l o fp).1.isError = true →
    isErrorEnvelope (get_release_series R k u rid l o fp).1 := by
  unfold get_release_series isErrorEnvelope
  dsimp only
  repeat' split
  all_goals intro h
  all_goals first
    | exact ⟨_, rfl, _, rfl⟩
    | simp [mkError] at h

theorem get_sources_error_shape (R : Renderers) (k : Option String)
    (u : Except String (Option DataFrame)) (fp : Option String) :
    (get_sources R k u fp).1.isError = true →
    isErrorEnvelope (get_sources R k u fp).1 := by
  unfold get_sources isErrorEnvelope
  dsimp only
  repeat' split
  all_goals intro h
  all_goals first
    | exact ⟨_, rfl, _, rfl⟩
    | simp [mkError] at h

theorem get_source_error_shape (R : Renderers) (k : Option String)
    (u : Except String SourceInfo) (sidN : Int) :
    (get_source R k u sidN).isError = true →
    isErrorEnvelope (get_source R k u sidN) := by
  unfold get_source isErrorEnvelope
  dsimp only
  repeat' split
  all_goals intro h
  all_goals first
    | exact ⟨_, rfl, _, rfl⟩
    | simp [mkError] at h

theorem search_related_tags_error_shape (k : Option String) (tn : String)
    (l o : Int) :
    (search_related_tags k tn l o).isError = true →
    isErrorEnvelope (search_related_tags k tn l o) := by
  intro h
  simp [search_related_tags] at h

/-- C1 counterexample: `get_series_info` for an id the upstream reports as
unknown (`fred.get_series_info` returns `None`) answers the documented
"found but empty" sentinel — `structured = {"error": msg}` with
`isError = false` — so `isError = true` is *not* equivalent to the presence
of an `error` field. -/
theorem error_invariant_counterexample :
    (get_series_info R0 (some "key") (Except.ok none) "GDP").isError = false ∧
    hasErrorField (get_series_info R0 (some "key") (Except.ok none) "GDP").structured
      = true := by
  decide

/-- C1 (amended): for every operation and every input, *if* the envelope
has `isError = true` then its structured payload is exactly an error
descriptor `{"error": e}` and the display text carries the failure message
`e` (after an operation-specific prefix).  The converse direction of the
claimed equivalence fails: the "no info/data found" paths of
`get_series_info` and `get_series_data` store an `error` field while
leaving `isError = false`. -/
theorem error_flag_implies_error_descriptor :
    (∀ R k u q l o fp, (search_series R k u q l o fp).1.isError = true →
       isErrorEnvelope (search_series R k u q l o fp).1)
  ∧ (∀ R k u sid, (get_series_info R k u sid).isError = true →
       isErrorEnvelope (get_series_info R k u sid))
  ∧ (∀ R k u iu sid l o fp, (get_series_data R k u iu sid l o fp).1.isError = true →
       isErrorEnvelope (get_series_data R k u iu sid l o fp).1)
  ∧ (∀ k cid, (get_category_details k cid).isError = true →
       isErrorEnvelope (get_category_details k cid))
  ∧ (∀ k cid, (get_category_children k cid).isError = true →
       isErrorEnvelope (get_category_children k cid))
  ∧ (∀ R k u cid l o fp, (get_category_series R k u cid l o fp).1.isError = true →
       isErrorEnvelope (get_category_series R k u cid l o fp).1)
  ∧ (∀ R k u l o fp, (get_releases R k u l o fp).1.isError = true →
       isErrorEnvelope (get_releases R k u l o fp).1)
  ∧ (∀ R k u rid l o fp, (get_release_series R k u rid l o fp).1.isError = true →
       isErrorEnvelope (get_release_series R k u rid l o fp).1)
  ∧ (∀ R k u fp, (get_sources R k u fp).1.isError = true →
       isErrorEnvelope (get_sources R k u fp).1)
  ∧ (∀ R k u sidN, (get_source R k u sidN).isError = true →
       isErrorEnvelope (get_source R k u sidN))
  ∧ (∀ k tn l o, (search_related_tags k tn l o).isError = true →
       isErrorEnvelope (search_related_tags k tn l o)) :=
  ⟨search_series_error_shape, get_series_info_error_shape,
   get_series_data_error_shape, get_category_details_error_shape,
   get_category_children_error_shape, get_category_series_error_shape,
   get_releases_error_shape, get_release_series_error_shape,
   get_sources_error_shape, get_source_error_shape,
   search_related_tags_error_shape⟩

/-- Witness for C1 (amended): an erroring call (missing credential) whose
envelope is indeed the exact error descriptor. -/
theorem error_flag_implies_error_descriptor_witness :
    (search_series R0 none (Except.ok none) "gdp" 10 0 none).1.isError = true ∧
    isErrorEnvelope (search_series R0 none (Except.ok none) "gdp" 10 0 none).1 :=
  ⟨by decide,
   error_flag_implies_error_descriptor.1 R0 none (Except.ok none) "gdp" 10 0 none
     (by decide)⟩

end FredMcp
